import Mathlib

/-!
Verification development for the NIS2-TCT host inventory scanner
(`nis2_scanner.py`).  The collectors of `Nis2ComplianceScanner` are shallowly
embedded: external effects (subprocess runs, registry reads, psutil calls) are
passed in as explicit outcome values, Python exceptions become `Except`
errors, and the pure parsing / filtering / aggregation logic is translated
statement by statement from the source.
-/

namespace Nis2

/-- Python `str.strip` whitespace set (ASCII part): space, tab, newline,
carriage return, vertical tab, form feed. -/
def isPySpace (c : Char) : Bool :=
  c = ' ' || c = '\t' || c = '\n' || c = '\r' || c = '\x0b' || c = '\x0c'

/-- Python `str.strip()` on the character list of a string. -/
def pyStripData (l : List Char) : List Char :=
  ((l.dropWhile isPySpace).reverse.dropWhile isPySpace).reverse

/-- Python `str.strip()`. -/
def pyStrip (s : String) : String :=
  ⟨pyStripData s.data⟩

/-- Python `str.split(sep)` with a one-character separator, on character
lists: every occurrence of the separator splits, empty fields are kept,
and the empty string yields one empty field, exactly as in Python. -/
def splitCharList (sep : Char) : List Char → List (List Char)
  | [] => [[]]
  | c :: cs =>
    if c = sep then [] :: splitCharList sep cs
    else
      match splitCharList sep cs with
      | r :: rs => (c :: r) :: rs
      | [] => [[c]]

/-- Python `str.split(sep)` with a one-character separator. -/
def pySplit (sep : Char) (s : String) : List String :=
  (splitCharList sep s.data).map (fun l => ⟨l⟩)

/-- A Python exception that escapes the collector uncaught (the only one the
embedded code can raise is the `ValueError` of unpacking `line.split('\t')`
into `name, version` when the split does not have exactly two fields). -/
inductive PyUncaught where
  | valueError
deriving DecidableEq, Repr

/-- One element of a software list: either a package record
`{"name": ..., "version": ...}` or the degenerate `{"error": ...}` record
(the spec's `CollectionError`). -/
inductive SwEntry where
  | pkg (name version : String)
  | err (msg : String)
deriving DecidableEq, Repr

/-- Outcome of one `subprocess.run([...], check=True)` invocation:
the process ran and exited 0 with the given stdout, or `check=True` raised
`CalledProcessError` (non-zero exit), or the executable was missing
(`FileNotFoundError`). -/
inductive RunOutcome where
  | ok (stdout : String)
  | calledProcessError
  | fileNotFoundError
deriving DecidableEq, Repr

/-- The parse loop shared by both Linux strategies
(`for line in ...: if line: name, version = line.split('\t'); append`).
A non-empty line whose tab-split is not exactly two fields raises
`ValueError`, which is modelled as the `Except.error`. -/
def parseLines : List String → Except PyUncaught (List SwEntry)
  | [] => Except.ok []
  | line :: rest =>
    if line = "" then parseLines rest
    else
      match pySplit '\t' line with
      | [name, version] =>
        match parseLines rest with
        | Except.ok tail => Except.ok (SwEntry.pkg name version :: tail)
        | Except.error e => Except.error e
      | _ => Except.error PyUncaught.valueError

/-- `result.stdout.strip().split('\n')` fed to the parse loop. -/
def parsePackagesOutput (stdout : String) : Except PyUncaught (List SwEntry) :=
  parseLines (pySplit '\n' (pyStrip stdout))

/-- `get_installed_software_linux`: try `dpkg-query`; on
`CalledProcessError`/`FileNotFoundError` (and only on those) fall back to
`rpm`; if that also fails the same way, return the one-element error list.
A `ValueError` raised while parsing either stdout is not caught by the
`except (subprocess.CalledProcessError, FileNotFoundError)` clauses and
propagates. -/
def get_installed_software_linux (dpkg rpm : RunOutcome) :
    Except PyUncaught (List SwEntry) :=
  match dpkg with
  | RunOutcome.ok out => parsePackagesOutput out
  | _ =>
    match rpm with
    | RunOutcome.ok out => parsePackagesOutput out
    | _ =>
      Except.ok
        [SwEntry.err "Could not determine the package manager (neither dpkg nor rpm)"]

/-- C3: on the Linux family, a dpkg-query invocation that succeeds with empty
output yields the empty package list as the final result, for every possible
state of the RPM strategy — so the RPM strategy is never consulted and there
is no fallback on an empty-but-successful first strategy. -/
theorem empty_dpkg_success_is_final (rpm : RunOutcome) :
    get_installed_software_linux (RunOutcome.ok "") rpm = Except.ok [] := rfl

/-- C4: whenever the Debian-style strategy is available and exits
successfully (outcome `RunOutcome.ok out`), the collector's result is exactly
the parse of that strategy's output, and it is independent of the RPM
strategy's outcome: the fallback short-circuits and the RPM strategy is never
attempted. -/
theorem dpkg_success_short_circuits (out : String) (rpm rpm' : RunOutcome) :
    get_installed_software_linux (RunOutcome.ok out) rpm = parsePackagesOutput out
    ∧ get_installed_software_linux (RunOutcome.ok out) rpm
      = get_installed_software_linux (RunOutcome.ok out) rpm' :=
  ⟨rfl, rfl⟩

/-- One registry uninstall subkey as `get_installed_software_windows` reads
it: `winreg.QueryValueEx(subkey, "DisplayName")` / `"DisplayVersion"` either
return a value or raise `OSError`; the Python code skips the subkey when
either read raises.  The version is modelled after the `str(version)`
conversion. -/
structure WinSubkey where
  displayName : Option String
  displayVersion : Option String
deriving DecidableEq, Repr

/-- The package a subkey contributes: present exactly when both the
display-name and display-version reads succeed (`except OSError: pass`
skips the subkey otherwise). -/
def subkeyPackage (sk : WinSubkey) : Option SwEntry :=
  match sk.displayName, sk.displayVersion with
  | some n, some v => some (SwEntry.pkg n v)
  | _, _ => none

/-- One registry uninstall location: `none` models `winreg.OpenKey` raising
`OSError` (path absent, silently skipped), `some subkeys` models the
enumerated subkeys in order. -/
def collectLocation (loc : Option (List WinSubkey)) : List SwEntry :=
  match loc with
  | none => []
  | some subkeys => subkeys.filterMap subkeyPackage

/-- `get_installed_software_windows`: scan both fixed uninstall locations,
then remove duplicates.  The source builds
`[dict(t) for t in {tuple(d.items()) for d in packages}]` — a set of the
`(name, version)` records, enumerated in an order Python leaves unspecified;
the embedding picks `List.dedup` as a deterministic enumeration of that set,
which has the same members and the same no-duplicates semantics. -/
def get_installed_software_windows (loc1 loc2 : Option (List WinSubkey)) :
    List SwEntry :=
  (collectLocation loc1 ++ collectLocation loc2).dedup

/-- One record of `psutil.net_connections(kind='inet')` as the source reads
it: `conn.status`, `conn.pid` (`None` or an integer), `conn.laddr.port`,
`conn.laddr.ip`, `conn.type.name`. -/
structure Conn where
  status : String
  pid : Option Nat
  laddr_port : Nat
  laddr_ip : String
  type_name : String
deriving DecidableEq, Repr

/-- Outcome of `psutil.Process(pid).name()` for one pid: a process name, the
`psutil.NoSuchProcess` exception (caught by the source), or any other
exception such as `psutil.AccessDenied` (not caught per-item). -/
inductive ProcLookup where
  | procName (s : String)
  | noSuchProcess
  | otherError (msg : String)
deriving DecidableEq, Repr

/-- Outcome of the `psutil.net_connections(kind='inet')` facility call
itself: the connection records, or an exception with its message. -/
inductive NetEnum where
  | ok (conns : List Conn)
  | fail (msg : String)

/-- One element of the listening-ports list: a socket record
`{"port", "address", "protocol", "process_name"}` or the degenerate
`{"error": ...}` record. -/
inductive NetEntry where
  | sock (port : Nat) (address : String) (protocol : String)
      (process_name : String)
  | err (msg : String)
deriving DecidableEq, Repr

/-- Python truthiness of the `conn.pid` field (`if conn.pid:`): `None` and
`0` are falsy, every other integer is truthy. -/
def pidTruthy : Option Nat → Bool
  | none => false
  | some p => p != 0

/-- The integer value behind a truthy pid field. -/
def pidValue : Option Nat → Nat
  | none => 0
  | some p => p

/-- The `proc_name` computation for one connection:
start from `"N/A"`; when the pid field is truthy, look the process up,
mapping `NoSuchProcess` to `"Process terminated"`; any other lookup
exception escapes the inner `try` (modelled as `Except.error`). -/
def resolveName (resolve : Nat → ProcLookup) (pid : Option Nat) :
    Except String String :=
  if pidTruthy pid then
    match resolve (pidValue pid) with
    | ProcLookup.procName s => Except.ok s
    | ProcLookup.noSuchProcess => Except.ok "Process terminated"
    | ProcLookup.otherError m => Except.error m
  else Except.ok "N/A"

/-- `"TCP" if conn.type.name == 'SOCK_STREAM' else "UDP"`. -/
def protoOf (c : Conn) : String :=
  if c.type_name = "SOCK_STREAM" then "TCP" else "UDP"

/-- The loop body of `get_network_info` over the connection list: keep
connections whose status is `'LISTEN'`, resolve the process name, build the
socket record; an uncaught per-item exception aborts the loop and carries
its message to the enclosing `except Exception` handler. -/
def collectEntries (resolve : Nat → ProcLookup) :
    List Conn → Except String (List NetEntry)
  | [] => Except.ok []
  | c :: rest =>
    if c.status = "LISTEN" then
      match resolveName resolve c.pid with
      | Except.error m => Except.error m
      | Except.ok pname =>
        match collectEntries resolve rest with
        | Except.error m => Except.error m
        | Except.ok tail =>
          Except.ok
            (NetEntry.sock c.laddr_port c.laddr_ip (protoOf c) pname :: tail)
    else collectEntries resolve rest

/-- `get_network_info`: the whole enumeration-and-loop is wrapped in
`try ... except Exception as e: return [{"error": f"Error getting network
information: {e}"}]`, so both a facility-level failure and an uncaught
per-item exception collapse the result to the one-element error list. -/
def get_network_info (env : NetEnum) (resolve : Nat → ProcLookup) :
    List NetEntry :=
  match env with
  | NetEnum.fail msg =>
    [NetEntry.err ("Error getting network information: " ++ msg)]
  | NetEnum.ok conns =>
    match collectEntries resolve conns with
    | Except.error m =>
      [NetEntry.err ("Error getting network information: " ++ m)]
    | Except.ok entries => entries

/-- `get_system_info` output (static host attributes, read without
failure). -/
structure SysInfo where
  os_release : String
  os_version : String
  architecture : String
  hostname : String
deriving DecidableEq, Repr

/-- The external world of one `run_scan` invocation: the detected platform,
the two Linux strategy outcomes, the two Windows registry locations, the
socket-enumeration outcome and the per-pid process lookup. -/
structure ScanEnv where
  os_type : String
  sys : SysInfo
  dpkg : RunOutcome
  rpm : RunOutcome
  win1 : Option (List WinSubkey)
  win2 : Option (List WinSubkey)
  netEnum : NetEnum
  resolve : Nat → ProcLookup

/-- The report `run_scan` builds, flattened: the fixed metadata constant,
the two section titles and status literals, and the two data payloads.
Both sections are fields of the structure, so a produced report always
carries both. -/
structure Report where
  scanner_version : String
  os_type : String
  system_info : SysInfo
  asset_title : String
  asset_status : String
  installed_software_sbom : List SwEntry
  net_title : String
  net_status : String
  listening_ports : List NetEntry
deriving Repr, DecidableEq

/-- The platform dispatch at the top of `run_scan`. -/
def softwareFor (env : ScanEnv) : Except PyUncaught (List SwEntry) :=
  if env.os_type = "Linux" then
    get_installed_software_linux env.dpkg env.rpm
  else if env.os_type = "Windows" then
    Except.ok (get_installed_software_windows env.win1 env.win2)
  else
    Except.ok
      [SwEntry.err ("Operating system " ++ env.os_type ++ " is not supported")]

/-- `run_scan`: software inventory first (an uncaught exception there aborts
the scan — `run_scan` has no handler), then network data, then the report
with both sections and their literal `"COMPLETED"` statuses. -/
def run_scan (env : ScanEnv) : Except PyUncaught Report :=
  match softwareFor env with
  | Except.error e => Except.error e
  | Except.ok software_list =>
    Except.ok
      { scanner_version := "0.1.0"
        os_type := env.os_type
        system_info := env.sys
        asset_title := "Asset and Software Inventory (SBOM)"
        asset_status := "COMPLETED"
        installed_software_sbom := software_list
        net_title := "Basic System Security Analysis (Open Ports)"
        net_status := "COMPLETED"
        listening_ports := get_network_info env.netEnum env.resolve }

/-- Fixed host attributes used by the concrete demonstration environments. -/
def demoSys : SysInfo :=
  { os_release := "6.1.0", os_version := "#1 SMP", architecture := "x86_64",
    hostname := "demo-host" }

/-- A process table in which every lookup raises `psutil.NoSuchProcess`. -/
def alwaysGone : Nat → ProcLookup := fun _ => ProcLookup.noSuchProcess

/-- A Linux run in which dpkg-query exits successfully but its second output
line has no tab character, while rpm would have produced a well-formed
line. -/
def malformedEnv : ScanEnv :=
  { os_type := "Linux", sys := demoSys,
    dpkg := RunOutcome.ok "pkga\t1.0\nbrokenline",
    rpm := RunOutcome.ok "bash\t5.1-6",
    win1 := none, win2 := none,
    netEnum := NetEnum.ok [], resolve := alwaysGone }

/-- C1 (the code contradicts the claim): a package-query output line with
zero tabs, or with two tabs, makes the parse loop's
`name, version = line.split('\t')` raise a `ValueError`; that exception is
not among the `(CalledProcessError, FileNotFoundError)` the strategy chain
catches, so instead of falling back it propagates out of
`get_installed_software_linux` and aborts `run_scan` — and no
split-on-first-tab parse of the malformed line ever happens. -/
theorem malformed_line_aborts_scan :
    get_installed_software_linux (RunOutcome.ok "brokenline")
        (RunOutcome.ok "bash\t5.1-6")
      = Except.error PyUncaught.valueError
    ∧ get_installed_software_linux (RunOutcome.ok "a\tb\tc")
        (RunOutcome.ok "bash\t5.1-6")
      = Except.error PyUncaught.valueError
    ∧ run_scan malformedEnv = Except.error PyUncaught.valueError :=
  ⟨rfl, rfl, rfl⟩

/-- C5: the Windows package list never holds two entries with the same
`(name, version)` pair, its members are exactly the records read from the
two registry locations, and two locations contributing the same record
leave exactly one entry. -/
theorem windows_list_has_no_duplicate_pairs (loc1 loc2 : Option (List WinSubkey)) :
    (get_installed_software_windows loc1 loc2).Nodup
    ∧ (∀ p, p ∈ get_installed_software_windows loc1 loc2 ↔
        p ∈ collectLocation loc1 ++ collectLocation loc2)
    ∧ get_installed_software_windows
        (some [{ displayName := some "Tool", displayVersion := some "1.0" }])
        (some [{ displayName := some "Tool", displayVersion := some "1.0" }])
      = [SwEntry.pkg "Tool" "1.0"] :=
  ⟨List.nodup_dedup _, fun _ => List.mem_dedup, by decide⟩

/-- C2: whenever `run_scan` produces a report, that report carries both
findings sections with the literal status `"COMPLETED"`, whatever the two
data payloads are. -/
theorem report_sections_always_completed (env : ScanEnv) (r : Report)
    (h : run_scan env = Except.ok r) :
    r.asset_status = "COMPLETED" ∧ r.net_status = "COMPLETED" := by
  rw [run_scan] at h
  cases hs : softwareFor env with
  | error e => rw [hs] at h; cases h
  | ok sw =>
    rw [hs] at h
    injection h with h
    subst h
    exact ⟨rfl, rfl⟩

/-- A run on an unsupported platform family whose socket enumeration also
fails: both payloads degrade to error records, the report is still built. -/
def unsupportedEnv : ScanEnv :=
  { os_type := "Plan9", sys := demoSys, dpkg := RunOutcome.fileNotFoundError,
    rpm := RunOutcome.fileNotFoundError, win1 := none, win2 := none,
    netEnum := NetEnum.fail "boom", resolve := alwaysGone }

/-- The report `run_scan unsupportedEnv` produces. -/
def unsupportedReport : Report :=
  { scanner_version := "0.1.0", os_type := "Plan9", system_info := demoSys,
    asset_title := "Asset and Software Inventory (SBOM)",
    asset_status := "COMPLETED",
    installed_software_sbom :=
      [SwEntry.err "Operating system Plan9 is not supported"],
    net_title := "Basic System Security Analysis (Open Ports)",
    net_status := "COMPLETED",
    listening_ports :=
      [NetEntry.err "Error getting network information: boom"] }

/-- Witness for C2 at a concrete run whose two payloads are both
`CollectionError` records. -/
theorem report_sections_always_completed_witness :
    unsupportedReport.asset_status = "COMPLETED"
    ∧ unsupportedReport.net_status = "COMPLETED" :=
  report_sections_always_completed unsupportedEnv unsupportedReport rfl

/-- The same run as `unsupportedReport` with a healthy (empty) socket
enumeration instead of the failing one. -/
def unsupportedReportNetOk : Report :=
  { unsupportedReport with listening_ports := [] }

/-- C8: a facility-level failure of the socket enumeration makes the
open-port payload the single-element error list, and the package payload of
the report is the same as in a run differing only in the network
environment. -/
theorem facility_failure_isolated (env : ScanEnv) (msg : String) (ne : NetEnum)
    (res : Nat → ProcLookup) (r r' : Report)
    (h1 : run_scan { env with netEnum := NetEnum.fail msg } = Except.ok r)
    (h2 : run_scan { env with netEnum := ne, resolve := res } = Except.ok r') :
    r.listening_ports
      = [NetEntry.err ("Error getting network information: " ++ msg)]
    ∧ r.installed_software_sbom = r'.installed_software_sbom := by
  have e1 : softwareFor { env with netEnum := NetEnum.fail msg }
      = softwareFor env := rfl
  have e2 : softwareFor { env with netEnum := ne, resolve := res }
      = softwareFor env := rfl
  rw [run_scan, e1] at h1
  rw [run_scan, e2] at h2
  cases hs : softwareFor env with
  | error e => rw [hs] at h1; cases h1
  | ok sw =>
    rw [hs] at h1
    rw [hs] at h2
    injection h1 with h1
    injection h2 with h2
    subst h1
    subst h2
    exact ⟨rfl, rfl⟩

/-- Witness for C8: the concrete failing-facility run against the same run
with a healthy socket enumeration. -/
theorem facility_failure_isolated_witness :
    unsupportedReport.listening_ports
      = [NetEntry.err ("Error getting network information: " ++ "boom")]
    ∧ unsupportedReport.installed_software_sbom
      = unsupportedReportNetOk.installed_software_sbom :=
  facility_failure_isolated unsupportedEnv "boom" (NetEnum.ok []) alwaysGone
    unsupportedReport unsupportedReportNetOk rfl rfl

/-- The socket record built for one retained connection, as a function of
that connection alone (helper for stating per-item locality; the empty name
in the error branch is never reached when no lookup raises an uncaught
exception). -/
def entryOf (resolve : Nat → ProcLookup) (c : Conn) : NetEntry :=
  NetEntry.sock c.laddr_port c.laddr_ip (protoOf c)
    (match resolveName resolve c.pid with
     | Except.ok s => s
     | Except.error _ => "")

/-- When every retained connection's name resolves without an uncaught
exception, the loop returns exactly the per-connection records of the
LISTEN-filtered enumeration, each depending on its own connection only. -/
theorem collectEntries_eq_map_of_ok (resolve : Nat → ProcLookup)
    (conns : List Conn)
    (h : ∀ c ∈ conns, c.status = "LISTEN" →
      ∃ s, resolveName resolve c.pid = Except.ok s) :
    collectEntries resolve conns =
      Except.ok
        ((conns.filter (fun c => c.status == "LISTEN")).map (entryOf resolve)) := by
  induction conns with
  | nil => rfl
  | cons c rest ih =>
    have hrest := ih (fun c' hc' hls => h c' (List.mem_cons_of_mem _ hc') hls)
    by_cases hls : c.status = "LISTEN"
    · obtain ⟨s, hsv⟩ := h c (List.mem_cons_self _ _) hls
      simp [collectEntries, hls, hsv, hrest, entryOf, List.filter_cons]
    · simp [collectEntries, hls, hrest, List.filter_cons]

/-- Every record of a successful loop run comes from one LISTEN connection
of the enumeration, with the fields the loop builds for it. -/
theorem collectEntries_ok_mem (resolve : Nat → ProcLookup) :
    ∀ (conns : List Conn) (l : List NetEntry),
      collectEntries resolve conns = Except.ok l →
      ∀ e ∈ l, ∃ c, c ∈ conns ∧ c.status = "LISTEN" ∧ ∃ pname,
        resolveName resolve c.pid = Except.ok pname ∧
        e = NetEntry.sock c.laddr_port c.laddr_ip (protoOf c) pname := by
  intro conns
  induction conns with
  | nil =>
    intro l hok e he
    simp only [collectEntries] at hok
    injection hok with hok
    subst hok
    cases he
  | cons c rest ih =>
    intro l hok e he
    by_cases hls : c.status = "LISTEN"
    · cases hr : resolveName resolve c.pid with
      | error m =>
        rw [collectEntries, if_pos hls, hr] at hok
        cases hok
      | ok pname =>
        cases hrest : collectEntries resolve rest with
        | error m =>
          rw [collectEntries, if_pos hls, hr, hrest] at hok
          cases hok
        | ok tail =>
          rw [collectEntries, if_pos hls, hr, hrest] at hok
          injection hok with hok
          subst hok
          cases he with
          | head =>
            exact ⟨c, List.mem_cons_self _ _, hls, pname, hr, rfl⟩
          | tail _ hmem =>
            obtain ⟨c', hc', hls', pn, hpn, he'⟩ := ih tail hrest e hmem
            exact ⟨c', List.mem_cons_of_mem _ hc', hls', pn, hpn, he'⟩
    · rw [collectEntries, if_neg hls] at hok
      obtain ⟨c', hc', hls', pn, hpn, he'⟩ := ih l hok e he
      exact ⟨c', List.mem_cons_of_mem _ hc', hls', pn, hpn, he'⟩

/-- If some retained connection's name lookup raises an uncaught exception,
the whole loop run fails (with the first such message). -/
theorem collectEntries_error_exists (resolve : Nat → ProcLookup)
    (conns : List Conn) (c : Conn) (m : String)
    (hc : c ∈ conns) (hls : c.status = "LISTEN")
    (he : resolveName resolve c.pid = Except.error m) :
    ∃ m', collectEntries resolve conns = Except.error m' := by
  induction conns with
  | nil => cases hc
  | cons a rest ih =>
    cases hc with
    | head =>
      exact ⟨m, by simp [collectEntries, hls, he]⟩
    | tail _ hmem =>
      by_cases ha : a.status = "LISTEN"
      · cases hr : resolveName resolve a.pid with
        | error m2 => exact ⟨m2, by simp [collectEntries, ha, hr]⟩
        | ok pn =>
          obtain ⟨m', hm'⟩ := ih hmem
          exact ⟨m', by simp [collectEntries, ha, hr, hm']⟩
      · obtain ⟨m', hm'⟩ := ih hmem
        exact ⟨m', by simp [collectEntries, ha, hm']⟩

/-- C6: per-socket process-name sentinels.  An absent pid field yields
exactly `"N/A"`; a present (truthy) pid whose process has exited yields
exactly `"Process terminated"` — each condition pins its own sentinel, so
neither sentinel can arise from the other condition; and as long as no
lookup raises an uncaught exception, the collector's output is a
per-connection map over the LISTEN-filtered enumeration, so one
connection's resolution (successful or `NoSuchProcess`) never affects a
sibling's record. -/
theorem sentinels_match_their_conditions (resolve : Nat → ProcLookup)
    (p : Nat) (conns : List Conn)
    (hp : p ≠ 0) (hgone : resolve p = ProcLookup.noSuchProcess)
    (hnoerr : ∀ c ∈ conns, c.status = "LISTEN" →
      ∀ m, resolve (pidValue c.pid) ≠ ProcLookup.otherError m) :
    resolveName resolve none = Except.ok "N/A"
    ∧ resolveName resolve (some p) = Except.ok "Process terminated"
    ∧ get_network_info (NetEnum.ok conns) resolve =
        (conns.filter (fun c => c.status == "LISTEN")).map (entryOf resolve) := by
  refine ⟨rfl, ?_, ?_⟩
  · simp [resolveName, pidTruthy, pidValue, hp, hgone]
  · have h : ∀ c ∈ conns, c.status = "LISTEN" →
        ∃ s, resolveName resolve c.pid = Except.ok s := by
      intro c hc hls
      rw [resolveName]
      by_cases ht : pidTruthy c.pid
      · rw [if_pos ht]
        cases hr : resolve (pidValue c.pid) with
        | procName s => exact ⟨s, rfl⟩
        | noSuchProcess => exact ⟨"Process terminated", rfl⟩
        | otherError m => exact absurd hr (hnoerr c hc hls m)
      · rw [if_neg ht]
        exact ⟨"N/A", rfl⟩
    rw [get_network_info, collectEntries_eq_map_of_ok resolve conns h]

/-- A two-socket enumeration: one LISTEN socket with no owning pid, one
LISTEN socket whose owner has exited, plus an ESTABLISHED socket. -/
def demoConnsSentinel : List Conn :=
  [{ status := "LISTEN", pid := none, laddr_port := 53,
     laddr_ip := "127.0.0.53", type_name := "SOCK_DGRAM" },
   { status := "LISTEN", pid := some 7, laddr_port := 22,
     laddr_ip := "0.0.0.0", type_name := "SOCK_STREAM" },
   { status := "ESTABLISHED", pid := some 9, laddr_port := 40000,
     laddr_ip := "10.0.0.5", type_name := "SOCK_STREAM" }]

/-- Witness for C6 on `demoConnsSentinel` under a process table where every
lookup reports the process as gone. -/
theorem sentinels_match_their_conditions_witness :
    resolveName alwaysGone none = Except.ok "N/A"
    ∧ resolveName alwaysGone (some 7) = Except.ok "Process terminated"
    ∧ get_network_info (NetEnum.ok demoConnsSentinel) alwaysGone =
        (demoConnsSentinel.filter (fun c => c.status == "LISTEN")).map
          (entryOf alwaysGone) :=
  sentinels_match_their_conditions alwaysGone 7 demoConnsSentinel
    (by decide) rfl (by intro c hc hls m; simp [alwaysGone])

/-- C7: every socket record the collector emits stems from a connection the
enumeration reported in state `"LISTEN"` — no other state ever contributes a
record — and its protocol field is `"TCP"` exactly when that connection's
socket type is `SOCK_STREAM`, `"UDP"` otherwise. -/
theorem output_sockets_listen_and_typed (env : NetEnum)
    (resolve : Nat → ProcLookup) (e : NetEntry) (port : Nat)
    (addr proto pname : String)
    (he : e ∈ get_network_info env resolve)
    (hsock : e = NetEntry.sock port addr proto pname) :
    ∃ conns c, env = NetEnum.ok conns ∧ c ∈ conns ∧ c.status = "LISTEN"
      ∧ port = c.laddr_port ∧ addr = c.laddr_ip
      ∧ proto = (if c.type_name = "SOCK_STREAM" then "TCP" else "UDP") := by
  subst hsock
  cases env with
  | fail msg => simp [get_network_info] at he
  | ok conns =>
    cases hc : collectEntries resolve conns with
    | error m =>
      rw [get_network_info, hc] at he
      simp at he
    | ok l =>
      rw [get_network_info, hc] at he
      obtain ⟨c, hcm, hls, pn, _, hee⟩ :=
        collectEntries_ok_mem resolve conns l hc _ he
      injection hee with h1 h2 h3 h4
      exact ⟨conns, c, rfl, hcm, hls, h1, h2, by rw [h3, protoOf]⟩

/-- A process table naming pid 7 `sshd` and raising `AccessDenied` on
pid 9. -/
def demoResolveMixed : Nat → ProcLookup := fun p =>
  if p = 7 then ProcLookup.procName "sshd"
  else if p = 9 then ProcLookup.otherError "AccessDenied"
  else ProcLookup.noSuchProcess

/-- Witness for C7: the TCP record emitted for the LISTEN connection of
`demoConnsSentinel` under a resolving process table. -/
theorem output_sockets_listen_and_typed_witness :
    ∃ conns c, NetEnum.ok demoConnsSentinel = NetEnum.ok conns ∧ c ∈ conns
      ∧ c.status = "LISTEN" ∧ 22 = c.laddr_port ∧ "0.0.0.0" = c.laddr_ip
      ∧ "TCP" = (if c.type_name = "SOCK_STREAM" then "TCP" else "UDP") :=
  output_sockets_listen_and_typed (NetEnum.ok demoConnsSentinel)
    (fun _ => ProcLookup.procName "sshd")
    (NetEntry.sock 22 "0.0.0.0" "TCP" "sshd") 22 "0.0.0.0" "TCP" "sshd"
    (by decide) rfl

/-- C9: a name-lookup failure other than `NoSuchProcess` (for example
`AccessDenied`) on any retained connection is caught only by the outer
`except Exception`, so the whole result — sockets already collected
included — is replaced by the single-element error list. -/
theorem lookup_error_collapses_result (conns : List Conn)
    (resolve : Nat → ProcLookup) (c : Conn) (p : Nat) (m : String)
    (hc : c ∈ conns) (hls : c.status = "LISTEN") (hp : c.pid = some p)
    (hp0 : p ≠ 0) (hm : resolve p = ProcLookup.otherError m) :
    ∃ emsg, get_network_info (NetEnum.ok conns) resolve = [NetEntry.err emsg] := by
  have hr : resolveName resolve c.pid = Except.error m := by
    simp [resolveName, hp, pidTruthy, pidValue, hp0, hm]
  obtain ⟨m', hm'⟩ := collectEntries_error_exists resolve conns c m hc hls hr
  exact ⟨"Error getting network information: " ++ m',
    by rw [get_network_info, hm']⟩

/-- Witness for C9: under `demoResolveMixed`, the enumeration holding the
resolvable sshd socket and then an AccessDenied socket collapses to the
one-element error list. -/
theorem lookup_error_collapses_result_witness :
    ∃ emsg,
      get_network_info
        (NetEnum.ok
          [{ status := "LISTEN", pid := some 7, laddr_port := 22,
             laddr_ip := "0.0.0.0", type_name := "SOCK_STREAM" },
           { status := "LISTEN", pid := some 9, laddr_port := 631,
             laddr_ip := "::1", type_name := "SOCK_STREAM" }])
        demoResolveMixed
      = [NetEntry.err emsg] :=
  lookup_error_collapses_result
    [{ status := "LISTEN", pid := some 7, laddr_port := 22,
       laddr_ip := "0.0.0.0", type_name := "SOCK_STREAM" },
     { status := "LISTEN", pid := some 9, laddr_port := 631,
       laddr_ip := "::1", type_name := "SOCK_STREAM" }]
    demoResolveMixed
    { status := "LISTEN", pid := some 9, laddr_port := 631,
      laddr_ip := "::1", type_name := "SOCK_STREAM" }
    9 "AccessDenied" (by decide) rfl rfl (by decide) rfl

/-- C10: a connection whose pid field holds the falsy value `0` is treated
like an absent pid: the record gets `"N/A"` and no lookup is attempted —
the result is the same for every process table, even one whose lookup of
pid 0 would raise. -/
theorem zero_pid_treated_as_absent (resolve : Nat → ProcLookup) (port : Nat)
    (addr tname : String) :
    resolveName resolve (some 0) = Except.ok "N/A"
    ∧ get_network_info
        (NetEnum.ok
          [{ status := "LISTEN", pid := some 0, laddr_port := port,
             laddr_ip := addr, type_name := tname }]) resolve
      = [NetEntry.sock port addr (if tname = "SOCK_STREAM" then "TCP" else "UDP")
          "N/A"] := by
  refine ⟨rfl, ?_⟩
  rw [get_network_info]
  simp [collectEntries, resolveName, pidTruthy, protoOf]

end Nis2
